import Mathlib

/-!
Verification of the Scuttle port-scanner core (src/scanner/*) against its
natural-language specification.

The Rust sources are shallowly embedded: pure computations become Lean
functions over `Nat`, `List Nat` (byte strings / UTF-8 code points) and
explicit inductive types; every interaction with the outside world
(socket connects, raw frames received, random numbers, the service-name
lookup collaborator, the banner-reader collaborator) is passed in as an
explicit parameter describing the outcome of that interaction, exactly in
the shape the Rust code observes it (an `io::Error` message string, a raw
frame byte buffer, ...).  Machine integers are `Nat` with explicit `% 256`
/ `% 65536` where the width matters.
-/

/-! ## Byte-string prelude

Rust `String` / `&str` values are modelled as `List Nat` of code points.
`str` converts a Lean string literal to that representation so the
embedded definitions can carry the exact message texts of the source.
-/

/-- Code-point list of a string literal. -/
def str (s : String) : List Nat := s.data.map Char.toNat

/-- ASCII lowercase of one code point; models `char::to_lowercase` on the
ASCII alphabet, which is all the scanner's substring tests rely on. -/
def lowerByte (c : Nat) : Nat := if 65 ≤ c ∧ c ≤ 90 then c + 32 else c

/-- Models Rust `str::to_lowercase`. -/
def toLowerL (s : List Nat) : List Nat := s.map lowerByte

/-- Models Rust `str::contains` (substring test). -/
def containsSub (s pat : List Nat) : Bool :=
  (List.range (s.length + 1)).any fun i => pat.isPrefixOf (s.drop i)

/-! ## Shared result and error types

From `src/scanner/mod.rs` (`PortStatus`, `PortResult`, `ScanResults`,
`ScanConfig`) and `src/scanner/traits.rs` (the `PortResult` variant that
additionally carries `response_time_ms`; the embedding carries that field
for all strategies, the strategies that do not set it leave it `none`),
and `src/error.rs` (`ScanError`; only the variants the scanner core
constructs are embedded).  `IpAddr` models `std::net::IpAddr` with the
address as a 32-bit (v4) or 128-bit (v6) natural number.
-/

inductive IpAddr where
  | v4 (addr : Nat)
  | v6 (addr : Nat)
deriving DecidableEq

/-- `Ipv4Addr::is_loopback`: the 127.0.0.0/8 block. -/
def Ipv4.is_loopback (addr : Nat) : Bool := addr / 16777216 == 127

inductive PortStatus where
  | Open
  | Closed
  | Filtered
  | OpenFiltered
deriving DecidableEq

structure PortResult where
  port : Nat
  status : PortStatus
  service : List Nat
  banner : Option (List Nat)
  response_time_ms : Option Nat
deriving DecidableEq

/-- `PortResult::new` from `src/scanner/traits.rs`. -/
def PortResult.new (port : Nat) (status : PortStatus) (service : List Nat) : PortResult :=
  ⟨port, status, service, none, none⟩

/-- `PortResult::with_banner`. -/
def PortResult.with_banner (r : PortResult) (banner : Option (List Nat)) : PortResult :=
  { r with banner := banner }

/-- `PortResult::with_response_time`. -/
def PortResult.with_response_time (r : PortResult) (time_ms : Nat) : PortResult :=
  { r with response_time_ms := some time_ms }

/-- `ScanError` variants constructed by the scanner core (`src/error.rs`).
The source's `ConnectionFailed.target` is `self.target.to_string()`; the
embedding keeps the address value itself. -/
inductive ScanError where
  | ConnectionFailed (target : IpAddr) (port : Nat) (reason : List Nat)
  | Timeout
  | ConnectionRefused
  | NetworkUnreachable (msg : List Nat)
  | HostUnreachable
  | PermissionDenied (msg : List Nat)
  | RawSocketError (msg : List Nat)
  | InvalidPacket (msg : List Nat)
  | InterfaceNotFound (msg : List Nat)
  | InvalidConfig (msg : List Nat)
deriving DecidableEq

inductive ScanType where
  | Connect
  | Syn
  | Udp
deriving DecidableEq

/-! ## TCP Connect strategy (`src/scanner/tcp.rs`) -/

/-- Outcome of `timeout(self.timeout, TcpStream::connect(addr))` as the
source observes it: `Ok(Ok(stream))`, `Ok(Err(e))` with the error's
display string, or `Err(_)` when the timeout elapsed. -/
inductive ConnectAttempt where
  | connected
  | connectError (msg : List Nat)
  | timedOut
deriving DecidableEq

structure TcpConnectScanner where
  target : IpAddr
  timeout : Nat
  grab_banners : Bool
deriving DecidableEq

/-- `TcpConnectScanner::new`. -/
def TcpConnectScanner.new (target : IpAddr) (timeout : Nat) (grab_banners : Bool) :
    TcpConnectScanner :=
  ⟨target, timeout, grab_banners⟩

/-- `TcpConnectScanner::attempt_connect` (tcp.rs lines 51-74): classifies
the connect outcome into a `ScanError` by substring tests on the
lowercased error text.  The successful stream is modelled as `Unit`. -/
def TcpConnectScanner.attempt_connect (s : TcpConnectScanner) (port : Nat)
    (io : ConnectAttempt) : Except ScanError Unit :=
  match io with
  | .connected => .ok ()
  | .connectError msg =>
      let error_str := toLowerL msg
      if containsSub error_str (str ("refused")) then .error .ConnectionRefused
      else if containsSub error_str (str ("unreachable")) then
        if containsSub error_str (str ("host")) then .error .HostUnreachable
        else .error (.NetworkUnreachable msg)
      else .error (.ConnectionFailed s.target port msg)
  | .timedOut => .error .Timeout

/-- `TcpConnectScanner::scan_port` (tcp.rs lines 95-128).  `svc` is the
return of the `get_service_description` collaborator, `bannerRead` the
return of the `grab_banner_from_stream` collaborator, `elapsed_ms` the
measured response time. -/
def TcpConnectScanner.scan_port (s : TcpConnectScanner) (svc : List Nat)
    (bannerRead : Option (List Nat)) (elapsed_ms : Nat) (port : Nat)
    (io : ConnectAttempt) : PortResult :=
  match s.attempt_connect port io with
  | .ok _ =>
      let banner := if s.grab_banners then bannerRead else none
      ((PortResult.new port .Open svc).with_banner banner).with_response_time elapsed_ms
  | .error e =>
      let status :=
        match e with
        | .ConnectionRefused => PortStatus.Closed
        | .Timeout => PortStatus.Filtered
        | .HostUnreachable => PortStatus.Filtered
        | .NetworkUnreachable _ => PortStatus.Filtered
        | _ => PortStatus.Closed
      PortResult.new port status svc

/-! ## SYN Stealth strategy (`src/scanner/syn.rs`)

Raw frames are byte buffers; the embedding reads them exactly as the
`pnet` accessors the source calls do, with every byte taken `% 256`
(frames are `&[u8]`).
-/

/-- `TcpFlags::SYN` (pnet). -/
def TcpFlags.SYN : Nat := 2

/-- `TcpFlags::RST` (pnet). -/
def TcpFlags.RST : Nat := 4

/-- `TcpFlags::ACK` (pnet). -/
def TcpFlags.ACK : Nat := 16

/-- Byte `i` of a frame (0 past the end, as only reachable under the
length guards the source performs). -/
def byteAt (frame : List Nat) (i : Nat) : Nat := frame.getD i 0 % 256

/-- `Ipv4Packet::get_source` on the IP packet starting at offset 14:
source-address field at IP-header offset 12, big-endian. -/
def frame_src_ip (frame : List Nat) : Nat :=
  byteAt frame 26 * 16777216 + byteAt frame 27 * 65536 +
    byteAt frame 28 * 256 + byteAt frame 29

/-- `Ipv4Packet::get_next_level_protocol`: IP-header offset 9
(TCP is protocol number 6). -/
def frame_protocol (frame : List Nat) : Nat := byteAt frame 23

/-- `Ipv4Packet::get_header_length` times 4 (bytes). -/
def frame_ip_header_len (frame : List Nat) : Nat := byteAt frame 14 % 16 * 4

/-- Offset of the TCP header: `ip_start + ip_header_len`. -/
def frame_tcp_start (frame : List Nat) : Nat := 14 + frame_ip_header_len frame

/-- `TcpPacket::get_source`, big-endian at TCP-header offset 0. -/
def frame_tcp_source (frame : List Nat) : Nat :=
  byteAt frame (frame_tcp_start frame) * 256 + byteAt frame (frame_tcp_start frame + 1)

/-- `TcpPacket::get_flags`: the 9-bit flags field (NS bit from byte 12,
then byte 13). -/
def frame_tcp_flags (frame : List Nat) : Nat :=
  byteAt frame (frame_tcp_start frame + 12) % 2 * 256 +
    byteAt frame (frame_tcp_start frame + 13)

/-- A `pnet` network interface as `SynScanner` consumes it
(`datalink::interfaces()` entries): name, addresses (`.ips[i].ip()`),
up/loopback flags, optional MAC (48-bit). -/
structure NetworkInterface where
  name : List Nat
  ips : List IpAddr
  up : Bool
  loopback : Bool
  mac : Option Nat
deriving DecidableEq

def NetworkInterface.is_up (i : NetworkInterface) : Bool := i.up

def NetworkInterface.is_loopback (i : NetworkInterface) : Bool := i.loopback

def IpAddr.is_ipv4 : IpAddr → Bool
  | .v4 _ => true
  | .v6 _ => false

structure SynScanner where
  target : Nat
  source_ip : Nat
  interface : NetworkInterface
  timeout : Nat
deriving DecidableEq

/-- The predicate of `find_interface`'s auto-selection search
(syn.rs lines 284-288). -/
def suitable_interface (iface : NetworkInterface) : Bool :=
  !iface.is_loopback && iface.is_up && iface.ips.any IpAddr.is_ipv4

/-- `find_interface` (syn.rs lines 272-293), over the interface list the
environment (`datalink::interfaces()`) supplies. -/
def find_interface (interfaces : List NetworkInterface) (name : Option (List Nat)) :
    Except ScanError NetworkInterface :=
  match name with
  | some n =>
      match interfaces.find? (fun iface => decide (iface.name = n)) with
      | some iface => .ok iface
      | none => .error (.InterfaceNotFound n)
  | none =>
      match interfaces.find? suitable_interface with
      | some iface => .ok iface
      | none => .error (.InterfaceNotFound (str ("No suitable network interface found")))

/-- The `find_map` body of `get_interface_ipv4`: a usable address is a
non-loopback IPv4 one. -/
def usable_ipv4 : IpAddr → Option Nat
  | .v4 addr => if !Ipv4.is_loopback addr then some addr else none
  | .v6 _ => none

/-- `get_interface_ipv4` (syn.rs lines 296-310). -/
def get_interface_ipv4 (iface : NetworkInterface) : Except ScanError Nat :=
  match iface.ips.findSome? usable_ipv4 with
  | some addr => .ok addr
  | none =>
      .error (.InvalidConfig
        (str ("Interface ") ++ iface.name ++ str (" has no IPv4 address")))

/-- `SynScanner::new` (syn.rs lines 58-81). -/
def SynScanner.new (interfaces : List NetworkInterface) (target : IpAddr)
    (interface_name : Option (List Nat)) (timeout : Nat) : Except ScanError SynScanner :=
  match target with
  | .v6 _ => .error (.InvalidConfig (str ("SYN scanning only supports IPv4 currently")))
  | .v4 target_v4 =>
      match find_interface interfaces interface_name with
      | .error e => .error e
      | .ok interface =>
          match get_interface_ipv4 interface with
          | .error e => .error e
          | .ok source_ip => .ok ⟨target_v4, source_ip, interface, timeout⟩

/-- `rand::thread_rng().gen_range(49152..65535)` (syn.rs lines 313-316):
a uniform draw from the half-open range, as a function of the RNG draw. -/
def rand_source_port (r : Nat) : Nat := 49152 + r % (65535 - 49152)

/-- Big-endian 16-bit field. -/
def to16 (n : Nat) : List Nat := [n / 256 % 256, n % 256]

/-- Big-endian 32-bit field. -/
def to32 (n : Nat) : List Nat :=
  [n / 16777216 % 256, n / 65536 % 256, n / 256 % 256, n % 256]

/-- Big-endian 48-bit field (MAC address). -/
def to48 (n : Nat) : List Nat :=
  [n / 1099511627776 % 256, n / 4294967296 % 256, n / 16777216 % 256,
   n / 65536 % 256, n / 256 % 256, n % 256]

/-- Sum of big-endian 16-bit words of a byte list (odd trailing byte
padded with a zero low byte), as the internet-checksum sum. -/
def sum16 : List Nat → Nat
  | [] => 0
  | [a] => a % 256 * 256
  | a :: b :: rest => a % 256 * 256 + b % 256 + sum16 rest

/-- End-around carry folding of the internet checksum (fuelled; every sum
of a bounded packet folds below 2^16 well within the fuel). -/
def foldCarries : Nat → Nat → Nat
  | 0, s => s % 65536
  | k + 1, s => if s < 65536 then s else foldCarries k (s % 65536 + s / 65536)

/-- RFC 1071 ones-complement checksum of a byte list (the algorithm of
`pnet::packet::ipv4::checksum` / `pnet::packet::tcp::ipv4_checksum`,
taken over the bytes with the checksum field itself zeroed). -/
def onesComplementChecksum (bytes : List Nat) : Nat :=
  65535 - foldCarries 32 (sum16 bytes)

/-- The random draws `build_syn_packet` consumes: the source-port draw,
the IP identification (`rand::random::<u16>()`) and the TCP initial
sequence number (`rand::random::<u32>()`). -/
structure SynPacketRandomness where
  source_port_seed : Nat
  identification : Nat
  sequence : Nat
deriving DecidableEq

/-- `SynScanner::build_syn_packet` (syn.rs lines 156-223): 14-byte
Ethernet header (broadcast destination, interface MAC or zero, EtherType
IPv4), 20-byte IPv4 header (version 4, IHL 5, total length 40,
don't-fragment, TTL 64, protocol TCP, header checksum) and 20-byte TCP
header (SYN flag only, data offset 5, window 65535, checksum over the
IPv4 pseudo-header). -/
def SynScanner.build_syn_packet (s : SynScanner) (rnd : SynPacketRandomness)
    (dest_port : Nat) : List Nat :=
  let source_port := rand_source_port rnd.source_port_seed
  let eth :=
    [255, 255, 255, 255, 255, 255] ++
    (match s.interface.mac with | some m => to48 m | none => to48 0) ++
    [8, 0]
  let ip_wo_checksum :=
    [69, 0] ++ to16 40 ++ to16 (rnd.identification % 65536) ++
    [64, 0, 64, 6] ++ to16 0 ++ to32 s.source_ip ++ to32 s.target
  let ip_checksum := onesComplementChecksum ip_wo_checksum
  let ip :=
    [69, 0] ++ to16 40 ++ to16 (rnd.identification % 65536) ++
    [64, 0, 64, 6] ++ to16 ip_checksum ++ to32 s.source_ip ++ to32 s.target
  let tcp_wo_checksum :=
    to16 source_port ++ to16 dest_port ++ to32 (rnd.sequence % 4294967296) ++
    to32 0 ++ [80, 2] ++ [255, 255] ++ to16 0 ++ to16 0
  let pseudo_header := to32 s.source_ip ++ to32 s.target ++ [0, 6] ++ to16 20
  let tcp_checksum := onesComplementChecksum (pseudo_header ++ tcp_wo_checksum)
  let tcp :=
    to16 source_port ++ to16 dest_port ++ to32 (rnd.sequence % 4294967296) ++
    to32 0 ++ [80, 2] ++ [255, 255] ++ to16 tcp_checksum ++ to16 0
  eth ++ ip ++ tcp

/-- TCP source port of a built frame: big-endian at bytes 34-35
(Ethernet 14 + IPv4 20). -/
def tcp_source_port_of (pkt : List Nat) : Nat :=
  pkt.getD 34 0 * 256 + pkt.getD 35 0

/-- A computation that either returns normally or aborts with a Rust
panic (which unwinds through the probe task and kills the job). -/
inductive PanicOr (α : Type) where
  | ret (a : α)
  | panicked
deriving DecidableEq

/-- `SynScanner::parse_response` (syn.rs lines 226-268).  The slice
`&frame[tcp_start..]` at syn.rs line 248 panics when `tcp_start`
(14 plus the frame's own IHL nibble times 4) exceeds the frame length —
the only prior length guard is `frame.len() >= 54`; when the suffix is
in range but shorter than 20 bytes, `TcpPacket::new` returns `None` and
the `?` operator discards the frame. -/
def SynScanner.parse_response (s : SynScanner) (frame : List Nat)
    (expected_port : Nat) : PanicOr (Option PortStatus) :=
  if frame.length < 14 + 20 + 20 then .ret none
  else if frame_src_ip frame ≠ s.target then .ret none
  else if frame_protocol frame ≠ 6 then .ret none
  else if frame.length < frame_tcp_start frame then .panicked
  else if frame.length < frame_tcp_start frame + 20 then .ret none
  else if frame_tcp_source frame ≠ expected_port then .ret none
  else
    let flags := frame_tcp_flags frame
    if flags &&& (TcpFlags.SYN ||| TcpFlags.ACK) = TcpFlags.SYN ||| TcpFlags.ACK then
      .ret (some PortStatus.Open)
    else if flags &&& TcpFlags.RST ≠ 0 then .ret (some PortStatus.Closed)
    else .ret none

/-- One `rx.next()` outcome inside the polling window: a frame, or an
error with its display text. -/
inductive RxEvent where
  | frame (f : List Nat)
  | rxError (msg : List Nat)
deriving DecidableEq

/-- The response-polling loop of `send_syn_and_wait` (syn.rs lines
134-152): the list holds the `rx.next()` outcomes that arrive before the
per-probe timeout elapses; exhausting it is the timeout, a non-timeout
receive error breaks out, both ending in `Filtered`; a `parse_response`
panic aborts the loop (and the probe task) altogether. -/
def SynScanner.poll_responses (s : SynScanner) (port : Nat) :
    List RxEvent → PanicOr PortStatus
  | [] => .ret PortStatus.Filtered
  | .frame f :: rest =>
      match s.parse_response f port with
      | .panicked => .panicked
      | .ret (some status) => .ret status
      | .ret none => s.poll_responses port rest
  | .rxError msg :: rest =>
      if containsSub msg (str ("timed out")) then s.poll_responses port rest
      else .ret PortStatus.Filtered

/-- Outcome of `datalink::channel` (syn.rs lines 109-126). -/
inductive ChannelOutcome where
  | ethernet (events : List RxEvent)
  | unsupported
  | chanErr (msg : List Nat)
deriving DecidableEq

/-- Outcome of `tx.send_to` (syn.rs lines 129-131): sent, `None` (no
destination buffer), or an I/O error. -/
inductive SendOutcome where
  | sent
  | noBuffer
  | sendErr (msg : List Nat)
deriving DecidableEq

/-- `SynScanner::send_syn_and_wait` (syn.rs lines 104-153).  The packet
build on correctly sized buffers cannot fail, so the embedded
`build_syn_packet` is total and only the channel, send and poll stages
remain fallible; a panic in the poll loop propagates. -/
def SynScanner.send_syn_and_wait (s : SynScanner) (port : Nat)
    (chan : ChannelOutcome) (send : SendOutcome) :
    PanicOr (Except ScanError PortStatus) :=
  match chan with
  | .unsupported => .ret (.error (.RawSocketError (str ("Unsupported channel type"))))
  | .chanErr msg =>
      let err_str := toLowerL msg
      if containsSub err_str (str ("permission")) ||
          containsSub err_str (str ("operation not permitted")) then
        .ret (.error (.PermissionDenied
          (str ("Raw socket access requires root/sudo privileges"))))
      else .ret (.error (.RawSocketError msg))
  | .ethernet events =>
      match send with
      | .noBuffer => .ret (.error (.RawSocketError (str ("Failed to send packet"))))
      | .sendErr msg => .ret (.error (.RawSocketError msg))
      | .sent =>
          match s.poll_responses port events with
          | .panicked => .panicked
          | .ret status => .ret (.ok status)

/-- `SynScanner::scan_port` (syn.rs lines 84-101): any `ScanError`
degrades to `Filtered`; `svc` is the `get_service_description`
collaborator's return.  A panic is not a `ScanError`: it is not caught
by the `match` and unwinds out of the probe task. -/
def SynScanner.scan_port (s : SynScanner) (svc : List Nat) (port : Nat)
    (chan : ChannelOutcome) (send : SendOutcome) : PanicOr PortResult :=
  match s.send_syn_and_wait port chan send with
  | .panicked => .panicked
  | .ret (.ok status) => .ret ⟨port, status, svc, none, none⟩
  | .ret (.error _) => .ret ⟨port, PortStatus.Filtered, svc, none, none⟩

/-- A concrete 54-byte frame from 192.168.1.1 with protocol TCP whose IP
header-length nibble is 11 (first IP byte 0x4B = 75), so the TCP header
offset 14 + 44 = 58 overruns the captured frame: the slice at syn.rs
line 248 panics on it. -/
def ihlOverrunFrame : List Nat :=
  [0, 0, 0, 0, 0, 0, 0, 0, 0, 0, 0, 0, 8, 0,
   75, 0, 0, 40, 0, 0, 64, 0, 64, 6, 0, 0, 192, 168, 1, 1, 10, 0, 0, 1,
   0, 0, 0, 0, 0, 0, 0, 0, 0, 0, 0, 0, 0, 0, 0, 0, 0, 0, 0, 0]

/-! ## UDP strategy (`src/scanner/udp.rs`) -/

/-- One entry of the built-in UDP probe-payload table. -/
structure UdpProbe where
  port : Nat
  payload : List Nat
deriving DecidableEq

/-- `UDP_PROBES` (udp.rs lines 34-60): DNS, SNMP, NTP, TFTP, NetBIOS. -/
def UDP_PROBES : List UdpProbe :=
  [ ⟨53, [0, 0, 16, 0, 0, 0, 0, 0, 0, 0, 0, 0]⟩,
    ⟨161, [48, 38, 2, 1, 1, 4, 6] ++ str ("public") ++ [160, 25, 2, 4]⟩,
    ⟨123, [227, 0, 4, 250, 0, 1, 0, 0, 0, 1, 0, 0]⟩,
    ⟨69, [0, 1] ++ str ("test") ++ [0] ++ str ("netascii") ++ [0]⟩,
    ⟨137, [128, 240, 0, 16, 0, 1, 0, 0, 0, 0, 0, 0, 32] ++
      str ("CKAAAAAAAAAAAAAAAAAAAAAAAAAAAAAA") ++ [0, 0, 33, 0, 1]⟩ ]

/-- `DEFAULT_PROBE` (udp.rs line 63). -/
def DEFAULT_PROBE : List Nat := [0]

/-- `get_probe_for_port` (udp.rs lines 192-198). -/
def get_probe_for_port (port : Nat) : List Nat :=
  match UDP_PROBES.find? (fun p => decide (p.port = port)) with
  | some p => p.payload
  | none => DEFAULT_PROBE

structure UdpScanner where
  target : IpAddr
  timeout : Nat
  retries : Nat
deriving DecidableEq

/-- `UdpScanner::new` (udp.rs lines 85-91): the retry count is fixed
at 2. -/
def UdpScanner.new (target : IpAddr) (timeout : Nat) : UdpScanner :=
  ⟨target, timeout, 2⟩

/-- Outcome of `timeout(self.timeout, socket.recv(..))` as the source
observes it: `Ok(Ok(n))` bytes, `Ok(Err(e))` with the error text, or
`Err(_)` when the timeout elapsed. -/
inductive RecvOutcome where
  | data (n : Nat)
  | recvError (msg : List Nat)
  | timedOut
deriving DecidableEq

/-- Outcome of `socket.send(probe)`. -/
inductive UdpSendOutcome where
  | sent
  | sendFailed (msg : List Nat)
deriving DecidableEq

/-- The send/recv outcomes of one retry iteration. -/
structure UdpAttempt where
  send : UdpSendOutcome
  recv : RecvOutcome
deriving DecidableEq

/-- Outcome of the bind/connect setup of `probe_port`
(udp.rs lines 97-116). -/
inductive UdpSetup where
  | ready
  | bindFailed (msg : List Nat)
  | connectFailed (msg : List Nat)
deriving DecidableEq

/-- The retry loop of `probe_port` (udp.rs lines 120-156), consuming one
`UdpAttempt` per iteration (`scan_port` runs it with `retries`-many
attempts).  Returns the probe outcome together with the list of
inter-retry sleeps (milliseconds) performed: the source sleeps 100 ms
whenever `attempt < retries - 1`, i.e. whenever further attempts remain. -/
def udp_probe_attempts (target : IpAddr) (port : Nat) :
    List UdpAttempt → Except ScanError PortStatus × List Nat
  | [] => (.ok PortStatus.OpenFiltered, [])
  | att :: rest =>
      match att.send with
      | .sendFailed msg => (.error (.ConnectionFailed target port msg), [])
      | .sent =>
          match att.recv with
          | .data (_ + 1) => (.ok PortStatus.Open, [])
          | .recvError msg =>
              let err_str := toLowerL msg
              if containsSub err_str (str ("refused")) ||
                  containsSub err_str (str ("unreachable")) then
                (.ok PortStatus.Closed, [])
              else
                let next := udp_probe_attempts target port rest
                (next.1, (if rest.isEmpty then [] else [100]) ++ next.2)
          | _ =>
              let next := udp_probe_attempts target port rest
              (next.1, (if rest.isEmpty then [] else [100]) ++ next.2)

/-- `UdpScanner::probe_port` (udp.rs lines 94-157): bind/connect failures
map to `ConnectionFailed`, then the retry loop runs. -/
def UdpScanner.probe_port (s : UdpScanner) (port : Nat) (setup : UdpSetup)
    (attempts : List UdpAttempt) : Except ScanError PortStatus × List Nat :=
  match setup with
  | .bindFailed msg => (.error (.ConnectionFailed s.target port msg), [])
  | .connectFailed msg => (.error (.ConnectionFailed s.target port msg), [])
  | .ready => udp_probe_attempts s.target port attempts

/-- `UdpScanner::scan_port` (udp.rs lines 178-188): any probe error
degrades to `Filtered`; `svc` is the `get_service_description`
collaborator's return. -/
def UdpScanner.scan_port (s : UdpScanner) (svc : List Nat) (port : Nat)
    (setup : UdpSetup) (attempts : List UdpAttempt) : PortResult :=
  match (s.probe_port port setup attempts).1 with
  | .ok status => PortResult.new port status svc
  | .error _ => PortResult.new port PortStatus.Filtered svc

/-! ## Scan orchestrator (`src/scanner/mod.rs`) -/

/-- `ScanConfig` (mod.rs lines 75-86) — exactly the source's fields; note
there is no rate-limit field. -/
structure ScanConfig where
  target : IpAddr
  target_hostname : List Nat
  ports : List Nat
  scan_type : ScanType
  concurrency : Nat
  timeout : Nat
  grab_banners : Bool
  show_closed : Bool
  verbose : Bool
  interface : Option (List Nat)

/-- `ScanResults` (mod.rs lines 61-72).  `ip_address` and `scan_type` keep
their typed values where the source renders strings. -/
structure ScanResults where
  target : List Nat
  ip_address : IpAddr
  scan_type : ScanType
  ports_scanned : Nat
  open_ports : Nat
  closed_ports : Nat
  filtered_ports : Nat
  duration_ms : Nat
  results : List PortResult

/-- `filtered_results.sort_by_key(|r| r.port)` (mod.rs line 180). -/
def sort_by_port (l : List PortResult) : List PortResult :=
  l.mergeSort (fun a b => decide (a.port ≤ b.port))

/-- The filter-and-sort stage of `run_scan` (mod.rs lines 171-180). -/
def run_scan_filter_sort (results : List PortResult) (show_closed : Bool) :
    List PortResult :=
  let filtered :=
    if show_closed then results
    else results.filter (fun r => decide (r.status ≠ PortStatus.Closed))
  sort_by_port filtered

/-- `run_scan` after the probes completed (mod.rs lines 167-208):
`collected` is the list the concurrent probe stream delivered (in
completion order), `duration_ms` the measured wall clock. -/
def run_scan (config : ScanConfig) (collected : List PortResult)
    (duration_ms : Nat) : ScanResults :=
  let filtered_results := run_scan_filter_sort collected config.show_closed
  { target := config.target_hostname
    ip_address := config.target
    scan_type := config.scan_type
    ports_scanned := config.ports.length
    open_ports := (filtered_results.filter (fun r =>
      decide (r.status = PortStatus.Open) || decide (r.status = PortStatus.OpenFiltered))).length
    closed_ports := (filtered_results.filter (fun r =>
      decide (r.status = PortStatus.Closed))).length
    filtered_ports := (filtered_results.filter (fun r =>
      decide (r.status = PortStatus.Filtered))).length
    duration_ms := duration_ms
    results := filtered_results }

/-- `run_scan` for the SYN branch (mod.rs lines 129-150): scanner
construction runs first and its error is propagated with `?`, so a
failing construction aborts the whole job before any probe; `probe`
abstracts one port's completed probe result. -/
def run_scan_syn (interfaces : List NetworkInterface) (config : ScanConfig)
    (probe : Nat → PortResult) (duration_ms : Nat) : Except ScanError ScanResults :=
  match SynScanner.new interfaces config.target config.interface config.timeout with
  | .error e => .error e
  | .ok _ => .ok (run_scan config (config.ports.map probe) duration_ms)

/-- The awaited suspension points of one probe task of
`scan_with_scanner` (mod.rs lines 228-243), in program order. -/
inductive ProbeEffect where
  | semAcquire
  | rateWait
  | invokeScan (port : Nat)
  | progressInc
  | semRelease
deriving DecidableEq

/-- The per-port task body of `scan_with_scanner` (mod.rs lines 228-243):
acquire a semaphore permit, invoke the strategy, optionally bump the
progress bar, release the permit on drop.  `rateWait` is in the effect
vocabulary for the `RateLimiter::wait` suspension of
`src/scanner/rate_limiter.rs`, which this task body never performs. -/
def probe_task_effects (verbose : Bool) (port : Nat) : List ProbeEffect :=
  [ProbeEffect.semAcquire, ProbeEffect.invokeScan port] ++
    (if verbose then [ProbeEffect.progressInc] else []) ++
    [ProbeEffect.semRelease]

/-- `scan_with_scanner` (mod.rs lines 212-248) as the list of per-port
effect traces it spawns. -/
def scan_with_scanner_effects (verbose : Bool) (ports : List Nat) :
    List (List ProbeEffect) :=
  ports.map (probe_task_effects verbose)

/-! ## Claims -/

/-- C1 (code defect): `scan_port` is not total for the SYN strategy.
This 54-byte captured frame has source IP equal to the target and
protocol TCP, but its IP header-length nibble (11) puts the TCP header
offset (14 + 44 = 58) past the frame end, so `parse_response` panics
(slice index out of range at syn.rs line 248) instead of returning, and
the panic unwinds through `send_syn_and_wait` and `scan_port`: the probe
produces no `PortResult` and the job aborts, where the claim has every
internal probe failure mapped to a `PortStatus`. -/
theorem syn_scan_port_panics_on_ihl_overrun_frame :
    54 ≤ ihlOverrunFrame.length
    ∧ frame_src_ip ihlOverrunFrame = 3232235777
    ∧ frame_protocol ihlOverrunFrame = 6
    ∧ ihlOverrunFrame.length < frame_tcp_start ihlOverrunFrame
    ∧ (SynScanner.mk 3232235777 167772161
        ⟨str ("eth0"), [IpAddr.v4 167772161], true, false, some 1⟩ 1000).parse_response
        ihlOverrunFrame 80 = PanicOr.panicked
    ∧ (SynScanner.mk 3232235777 167772161
        ⟨str ("eth0"), [IpAddr.v4 167772161], true, false, some 1⟩ 1000).scan_port
        (str ("http")) 80 (ChannelOutcome.ethernet [RxEvent.frame ihlOverrunFrame])
        SendOutcome.sent = PanicOr.panicked := by decide

/-- C3: `TcpConnectScanner::scan_port` classifies a successful connection
as Open, a refused connection as Closed, a timeout as Filtered, host or
network unreachable as Filtered, and any other I/O failure as Closed. -/
theorem tcp_scan_port_classification (tcp : TcpConnectScanner) (svc : List Nat)
    (bannerRead : Option (List Nat)) (elapsed : Nat) (port : Nat) (msg : List Nat) :
    (tcp.scan_port svc bannerRead elapsed port ConnectAttempt.connected).status = PortStatus.Open
    ∧ (tcp.scan_port svc bannerRead elapsed port ConnectAttempt.timedOut).status = PortStatus.Filtered
    ∧ (containsSub (toLowerL msg) (str ("refused")) = true →
        (tcp.scan_port svc bannerRead elapsed port (ConnectAttempt.connectError msg)).status =
          PortStatus.Closed)
    ∧ (containsSub (toLowerL msg) (str ("refused")) = false →
        containsSub (toLowerL msg) (str ("unreachable")) = true →
        (tcp.scan_port svc bannerRead elapsed port (ConnectAttempt.connectError msg)).status =
          PortStatus.Filtered)
    ∧ (containsSub (toLowerL msg) (str ("refused")) = false →
        containsSub (toLowerL msg) (str ("unreachable")) = false →
        (tcp.scan_port svc bannerRead elapsed port (ConnectAttempt.connectError msg)).status =
          PortStatus.Closed) := by
  refine ⟨?_, ?_, ?_, ?_, ?_⟩
  · simp [TcpConnectScanner.scan_port, TcpConnectScanner.attempt_connect,
      PortResult.new, PortResult.with_banner, PortResult.with_response_time]
  · simp [TcpConnectScanner.scan_port, TcpConnectScanner.attempt_connect, PortResult.new]
  · intro h
    simp [TcpConnectScanner.scan_port, TcpConnectScanner.attempt_connect, h, PortResult.new]
  · intro h1 h2
    simp only [TcpConnectScanner.scan_port, TcpConnectScanner.attempt_connect, h1, h2]
    split_ifs <;> simp_all [PortResult.new]
  · intro h1 h2
    simp [TcpConnectScanner.scan_port, TcpConnectScanner.attempt_connect, h1, h2, PortResult.new]

/-- Witness for C3 at concrete error messages: "Connection refused" goes
to Closed, "Host unreachable" and "Network unreachable" to Filtered, a
generic failure to Closed. -/
theorem tcp_scan_port_classification_witness :
    ((TcpConnectScanner.new (IpAddr.v4 2130706433) 3000 false).scan_port
        (str ("http")) none 0 80 (ConnectAttempt.connectError (str ("Connection refused")))).status =
        PortStatus.Closed
    ∧ ((TcpConnectScanner.new (IpAddr.v4 2130706433) 3000 false).scan_port
        (str ("http")) none 0 80 (ConnectAttempt.connectError (str ("Host unreachable")))).status =
        PortStatus.Filtered
    ∧ ((TcpConnectScanner.new (IpAddr.v4 2130706433) 3000 false).scan_port
        (str ("http")) none 0 80 (ConnectAttempt.connectError (str ("Network unreachable")))).status =
        PortStatus.Filtered
    ∧ ((TcpConnectScanner.new (IpAddr.v4 2130706433) 3000 false).scan_port
        (str ("http")) none 0 80 (ConnectAttempt.connectError (str ("permission denied")))).status =
        PortStatus.Closed :=
  ⟨(tcp_scan_port_classification (TcpConnectScanner.new (IpAddr.v4 2130706433) 3000 false)
      (str ("http")) none 0 80 (str ("Connection refused"))).2.2.1 (by decide),
   (tcp_scan_port_classification (TcpConnectScanner.new (IpAddr.v4 2130706433) 3000 false)
      (str ("http")) none 0 80 (str ("Host unreachable"))).2.2.2.1 (by decide) (by decide),
   (tcp_scan_port_classification (TcpConnectScanner.new (IpAddr.v4 2130706433) 3000 false)
      (str ("http")) none 0 80 (str ("Network unreachable"))).2.2.2.1 (by decide) (by decide),
   (tcp_scan_port_classification (TcpConnectScanner.new (IpAddr.v4 2130706433) 3000 false)
      (str ("http")) none 0 80 (str ("permission denied"))).2.2.2.2 (by decide) (by decide)⟩

/-- C4: the UDP probe returns Open when reply bytes arrive, Closed when
the receive fails with a refused/unreachable socket error, retries on
timeout with a fixed 100 ms delay between retries, and returns
OpenFiltered after the fixed retry count (2) all time out. -/
theorem udp_probe_port_classification (target : IpAddr) (timeoutMs : Nat) (port : Nat)
    (n : Nat) (msg : List Nat) (a2 : UdpAttempt) :
    (UdpScanner.new target timeoutMs).retries = 2
    ∧ ((UdpScanner.new target timeoutMs).probe_port port UdpSetup.ready
        [⟨UdpSendOutcome.sent, RecvOutcome.data (n + 1)⟩, a2]).1 = Except.ok PortStatus.Open
    ∧ ((UdpScanner.new target timeoutMs).probe_port port UdpSetup.ready
        [⟨UdpSendOutcome.sent, RecvOutcome.timedOut⟩,
         ⟨UdpSendOutcome.sent, RecvOutcome.data (n + 1)⟩]).1 = Except.ok PortStatus.Open
    ∧ ((containsSub (toLowerL msg) (str ("refused")) = true ∨
          containsSub (toLowerL msg) (str ("unreachable")) = true) →
        ((UdpScanner.new target timeoutMs).probe_port port UdpSetup.ready
          [⟨UdpSendOutcome.sent, RecvOutcome.recvError msg⟩, a2]).1 = Except.ok PortStatus.Closed)
    ∧ (UdpScanner.new target timeoutMs).probe_port port UdpSetup.ready
        [⟨UdpSendOutcome.sent, RecvOutcome.timedOut⟩,
         ⟨UdpSendOutcome.sent, RecvOutcome.timedOut⟩] =
        (Except.ok PortStatus.OpenFiltered, [100]) := by
  refine ⟨rfl, rfl, rfl, ?_, rfl⟩
  intro h
  rcases h with h | h <;>
    simp [UdpScanner.probe_port, UdpScanner.new, udp_probe_attempts, h]

/-- Witness for C4: an ICMP-style "Connection refused" receive error on
the first attempt classifies the port as Closed. -/
theorem udp_probe_port_classification_witness :
    ((UdpScanner.new (IpAddr.v4 2130706433) 1000).probe_port 53 UdpSetup.ready
      [⟨UdpSendOutcome.sent, RecvOutcome.recvError (str ("Connection refused"))⟩,
       ⟨UdpSendOutcome.sent, RecvOutcome.timedOut⟩]).1 = Except.ok PortStatus.Closed :=
  (udp_probe_port_classification (IpAddr.v4 2130706433) 1000 53 0
    (str ("Connection refused"))
    ⟨UdpSendOutcome.sent, RecvOutcome.timedOut⟩).2.2.2.1 (Or.inl (by decide))

/-- The flags field built by `frame_tcp_flags` is a 9-bit value. -/
theorem frame_tcp_flags_lt (frame : List Nat) : frame_tcp_flags frame < 512 := by
  unfold frame_tcp_flags byteAt
  omega

set_option maxRecDepth 8192 in
/-- For any 9-bit flags field, the source's mask tests agree with the
individual SYN (bit 1), RST (bit 2) and ACK (bit 4) flag bits. -/
theorem flags_mask_decode :
    ∀ f : Fin 512,
      ((f.val &&& (TcpFlags.SYN ||| TcpFlags.ACK) = TcpFlags.SYN ||| TcpFlags.ACK) ↔
        (f.val.testBit 1 = true ∧ f.val.testBit 4 = true))
      ∧ ((f.val &&& TcpFlags.RST ≠ 0) ↔ f.val.testBit 2 = true) := by decide

/-- Counterexample to C5 as stated: this received frame has source IP
equal to the target and protocol TCP, yet it is neither discarded nor
classified — its IHL-derived TCP offset overruns the captured frame,
`parse_response` panics on the slice at syn.rs line 248, and the panic
propagates out of the poll loop instead of the window ending in
Filtered. -/
theorem syn_parse_response_ihl_overrun_counterexample :
    frame_src_ip ihlOverrunFrame = 3232235777
    ∧ frame_protocol ihlOverrunFrame = 6
    ∧ (SynScanner.mk 3232235777 167772161
        ⟨str ("eth0"), [IpAddr.v4 167772161], true, false, some 1⟩ 1000).parse_response
        ihlOverrunFrame 80 = PanicOr.panicked
    ∧ (SynScanner.mk 3232235777 167772161
        ⟨str ("eth0"), [IpAddr.v4 167772161], true, false, some 1⟩ 1000).poll_responses
        80 [RxEvent.frame ihlOverrunFrame] = PanicOr.panicked := by decide

/-- C5 (amended): during a SYN probe of port p, a received frame whose
IHL-derived TCP offset stays within the captured frame is discarded
unless its source IP equals the target, its protocol is TCP and its TCP
source port equals p (a frame whose IHL overruns the capture instead
panics, per the counterexample); a matching in-bounds frame with SYN and
ACK set classifies the port as Open, one with RST set (and not SYN+ACK)
as Closed, and a poll window in which every frame is discarded
classifies the port as Filtered. -/
theorem syn_parse_response_classification (s : SynScanner) (frame : List Nat)
    (p : Nat) (events : List RxEvent) :
    (∀ st, s.parse_response frame p = PanicOr.ret (some st) →
        frame_src_ip frame = s.target ∧ frame_protocol frame = 6 ∧
          frame_tcp_source frame = p)
    ∧ (14 + 20 + 20 ≤ frame.length → frame_tcp_start frame + 20 ≤ frame.length →
        frame_src_ip frame = s.target → frame_protocol frame = 6 →
        frame_tcp_source frame = p →
        ((frame_tcp_flags frame).testBit 1 = true →
          (frame_tcp_flags frame).testBit 4 = true →
          s.parse_response frame p = PanicOr.ret (some PortStatus.Open))
        ∧ ((frame_tcp_flags frame).testBit 2 = true →
            ¬((frame_tcp_flags frame).testBit 1 = true ∧
              (frame_tcp_flags frame).testBit 4 = true) →
            s.parse_response frame p = PanicOr.ret (some PortStatus.Closed)))
    ∧ ((∀ f, RxEvent.frame f ∈ events → s.parse_response f p = PanicOr.ret none) →
        s.poll_responses p events = PanicOr.ret PortStatus.Filtered) := by
  refine ⟨?_, ?_, ?_⟩
  · intro st h
    simp only [SynScanner.parse_response] at h
    split_ifs at h <;> simp_all
  · intro hlen1 hlen2 hsrc hproto hport
    have hflags := frame_tcp_flags_lt frame
    have hdec := flags_mask_decode ⟨frame_tcp_flags frame, hflags⟩
    constructor
    · intro hsyn hack
      simp only [SynScanner.parse_response]
      rw [if_neg (by omega), if_neg (by simp [hsrc]), if_neg (by simp [hproto]),
        if_neg (by omega), if_neg (by omega), if_neg (by simp [hport]),
        if_pos (hdec.1.mpr ⟨hsyn, hack⟩)]
    · intro hrst hnot
      simp only [SynScanner.parse_response]
      rw [if_neg (by omega), if_neg (by simp [hsrc]), if_neg (by simp [hproto]),
        if_neg (by omega), if_neg (by omega), if_neg (by simp [hport]),
        if_neg (fun hmask => hnot (hdec.1.mp hmask)),
        if_pos (hdec.2.mpr hrst)]
  · induction events with
    | nil => intro _; rfl
    | cons ev rest ih =>
        intro hall
        cases ev with
        | frame f =>
            have hf := hall f (List.mem_cons_self _ _)
            simp only [SynScanner.poll_responses, hf]
            exact ih (fun g hg => hall g (List.mem_cons_of_mem _ hg))
        | rxError msg =>
            simp only [SynScanner.poll_responses]
            split
            · exact ih (fun g hg => hall g (List.mem_cons_of_mem _ hg))
            · rfl

/-- A concrete 54-byte SYN+ACK reply frame from 192.168.1.1, TCP source
port 80, used to witness C5. -/
def synAckFrame : List Nat :=
  [0, 0, 0, 0, 0, 0, 0, 0, 0, 0, 0, 0, 8, 0,
   69, 0, 0, 40, 0, 0, 64, 0, 64, 6, 0, 0, 192, 168, 1, 1, 10, 0, 0, 1,
   0, 80, 197, 48, 0, 0, 0, 0, 0, 0, 0, 0, 80, 18, 255, 255, 0, 0, 0, 0]

/-- Witness for C5: the concrete SYN+ACK frame parses to Open for a
scanner targeting 192.168.1.1, and an empty poll window yields
Filtered. -/
theorem syn_parse_response_classification_witness :
    (SynScanner.mk 3232235777 167772161
        ⟨str ("eth0"), [IpAddr.v4 167772161], true, false, some 1⟩ 1000).parse_response
      synAckFrame 80 = PanicOr.ret (some PortStatus.Open)
    ∧ (SynScanner.mk 3232235777 167772161
        ⟨str ("eth0"), [IpAddr.v4 167772161], true, false, some 1⟩ 1000).poll_responses
      80 [] = PanicOr.ret PortStatus.Filtered :=
  ⟨((syn_parse_response_classification
      (SynScanner.mk 3232235777 167772161
        ⟨str ("eth0"), [IpAddr.v4 167772161], true, false, some 1⟩ 1000)
      synAckFrame 80 []).2.1 (by decide) (by decide) (by decide) (by decide)
      (by decide)).1 (by decide) (by decide),
   (syn_parse_response_classification
      (SynScanner.mk 3232235777 167772161
        ⟨str ("eth0"), [IpAddr.v4 167772161], true, false, some 1⟩ 1000)
      synAckFrame 80 []).2.2 (fun f hf => absurd hf (by simp))⟩

/-- C9: every built SYN probe frame carries the randomized ephemeral
source port: `rand_source_port` always lands in [49152, 65535] and
`build_syn_packet` writes exactly that value, big-endian, into the TCP
source-port field (frame bytes 34-35). -/
theorem syn_packet_ephemeral_source_port (s : SynScanner) (rnd : SynPacketRandomness)
    (dest_port : Nat) :
    49152 ≤ rand_source_port rnd.source_port_seed
    ∧ rand_source_port rnd.source_port_seed ≤ 65535
    ∧ tcp_source_port_of (s.build_syn_packet rnd dest_port) =
        rand_source_port rnd.source_port_seed := by
  refine ⟨by unfold rand_source_port; omega, by unfold rand_source_port; omega, ?_⟩
  have hlt : rand_source_port rnd.source_port_seed < 65536 := by
    unfold rand_source_port; omega
  obtain ⟨tgt, srcip, ⟨nm, ips, up, lb, mac⟩, tmo⟩ := s
  have h : tcp_source_port_of
      (SynScanner.build_syn_packet ⟨tgt, srcip, ⟨nm, ips, up, lb, mac⟩, tmo⟩ rnd dest_port) =
      rand_source_port rnd.source_port_seed / 256 % 256 * 256 +
        rand_source_port rnd.source_port_seed % 256 := by
    cases mac <;> rfl
  rw [h]
  omega

/-- C7: `SynScanner::new` fails before any port is probed, with
distinguishable errors: an IPv6 target yields the unsupported-target
configuration error, a named interface that does not exist yields an
interface-not-found error, an interface without a usable (non-loopback)
IPv4 address yields the no-usable-address error; with no name given, the
first non-loopback, up interface with an IPv4 address is auto-selected;
and a construction error aborts the whole SYN job before any probe. -/
theorem syn_scanner_construction_fail_fast
    (interfaces : List NetworkInterface) (config : ScanConfig)
    (a t tmo : Nat) (n : List Nat) (iface : NetworkInterface)
    (nameOpt : Option (List Nat)) (pre post : List NetworkInterface)
    (probe : Nat → PortResult) (dur : Nat) :
    (SynScanner.new interfaces (IpAddr.v6 a) nameOpt tmo =
        Except.error (ScanError.InvalidConfig
          (str ("SYN scanning only supports IPv4 currently"))))
    ∧ ((∀ i ∈ interfaces, i.name ≠ n) →
        SynScanner.new interfaces (IpAddr.v4 t) (some n) tmo =
          Except.error (ScanError.InterfaceNotFound n))
    ∧ ((∀ ip ∈ iface.ips, usable_ipv4 ip = none) →
        get_interface_ipv4 iface =
          Except.error (ScanError.InvalidConfig
            (str ("Interface ") ++ iface.name ++ str (" has no IPv4 address"))))
    ∧ (interfaces = pre ++ iface :: post →
        (∀ j ∈ pre, suitable_interface j = false) → suitable_interface iface = true →
        find_interface interfaces none = Except.ok iface)
    ∧ (∀ e, SynScanner.new interfaces config.target config.interface config.timeout =
          Except.error e →
        run_scan_syn interfaces config probe dur = Except.error e) := by
  refine ⟨rfl, ?_, ?_, ?_, ?_⟩
  · intro h
    simp only [SynScanner.new, find_interface]
    rw [List.find?_eq_none.mpr (fun i hi => by simpa using h i hi)]
  · intro h
    simp only [get_interface_ipv4]
    rw [List.findSome?_eq_none_iff.mpr h]
  · intro heq hpre hif
    subst heq
    revert hpre
    induction pre with
    | nil =>
        intro _
        simp [find_interface, List.find?_cons_of_pos _ hif]
    | cons j js ih =>
        intro hpre
        have hj := hpre j (List.mem_cons_self _ _)
        simp only [List.cons_append, find_interface] at ih ⊢
        rw [List.find?_cons_of_neg _ (by simp [hj])]
        exact ih (fun k hk => hpre k (List.mem_cons_of_mem _ hk))
  · intro e he
    simp [run_scan_syn, he]

/-- Witness for C7 at concrete inputs: an IPv6 target, and a missing
named interface on a one-interface host, each produce their distinct
construction error. -/
theorem syn_scanner_construction_fail_fast_witness :
    SynScanner.new [⟨str ("eth0"), [IpAddr.v4 167772161], true, false, some 1⟩]
        (IpAddr.v6 1) none 3000 =
      Except.error (ScanError.InvalidConfig
        (str ("SYN scanning only supports IPv4 currently")))
    ∧ SynScanner.new [⟨str ("eth0"), [IpAddr.v4 167772161], true, false, some 1⟩]
        (IpAddr.v4 3232235777) (some (str ("wlan9"))) 3000 =
      Except.error (ScanError.InterfaceNotFound (str ("wlan9"))) :=
  ⟨(syn_scanner_construction_fail_fast
      [⟨str ("eth0"), [IpAddr.v4 167772161], true, false, some 1⟩]
      ⟨IpAddr.v4 1, [], [], ScanType.Syn, 500, 3000, false, false, false, none⟩
      1 3232235777 3000 (str ("wlan9"))
      ⟨str ("eth0"), [IpAddr.v4 167772161], true, false, some 1⟩
      none [] [] (fun p => PortResult.new p PortStatus.Open []) 0).1,
   (syn_scanner_construction_fail_fast
      [⟨str ("eth0"), [IpAddr.v4 167772161], true, false, some 1⟩]
      ⟨IpAddr.v4 1, [], [], ScanType.Syn, 500, 3000, false, false, false, none⟩
      1 3232235777 3000 (str ("wlan9"))
      ⟨str ("eth0"), [IpAddr.v4 167772161], true, false, some 1⟩
      none [] [] (fun p => PortResult.new p PortStatus.Open []) 0).2.1
      (by decide)⟩

/-- `sort_by_port` permutes its input (merge sort). -/
theorem sort_by_port_perm (l : List PortResult) : (sort_by_port l).Perm l :=
  List.mergeSort_perm l _

/-- `sort_by_port` sorts by ascending port. -/
theorem sort_by_port_sorted (l : List PortResult) :
    List.Pairwise (fun a b : PortResult => a.port ≤ b.port) (sort_by_port l) := by
  have hs := @List.sorted_mergeSort PortResult (fun a b => decide (a.port ≤ b.port))
    (fun a b c hab hbc => by
      simp only [decide_eq_true_eq] at hab hbc ⊢
      omega)
    (fun a b => by
      simp only [Bool.or_eq_true, decide_eq_true_eq]
      omega) l
  exact hs.imp (fun h => of_decide_eq_true h)

/-- On a list whose ports are pairwise distinct, `sort_by_port` sorts by
strictly ascending port. -/
theorem sort_by_port_pairwise_lt (l : List PortResult)
    (hnd : (l.map PortResult.port).Nodup) :
    List.Pairwise (fun a b : PortResult => a.port < b.port) (sort_by_port l) := by
  have hle := sort_by_port_sorted l
  have hndsorted : ((sort_by_port l).map PortResult.port).Nodup :=
    (((sort_by_port_perm l).map PortResult.port).symm).nodup hnd
  have hne : List.Pairwise (fun a b : PortResult => a.port ≠ b.port) (sort_by_port l) :=
    List.pairwise_map.mp hndsorted
  exact (hle.and hne).imp (fun h => lt_of_le_of_ne h.1 h.2)

/-- C2: for a deduplicated port list, the report's result list is sorted
strictly ascending by port (hence has at most one entry per distinct
port), its length equals the number of distinct ports scanned when
closed results are retained, and is at most that count otherwise —
whatever completion order the concurrent probes delivered. -/
theorem run_scan_report_sorted_unique_length
    (config : ScanConfig) (scan : Nat → PortResult) (collected : List PortResult)
    (duration : Nat)
    (hnd : config.ports.Nodup)
    (hp : ∀ p, (scan p).port = p)
    (hperm : collected.Perm (config.ports.map scan)) :
    List.Pairwise (fun a b : PortResult => a.port < b.port)
      (run_scan config collected duration).results
    ∧ ((run_scan config collected duration).results.map PortResult.port).Nodup
    ∧ (config.show_closed = true →
        (run_scan config collected duration).results.length = config.ports.length)
    ∧ (run_scan config collected duration).results.length ≤ config.ports.length := by
  have hmap : (collected.map PortResult.port).Perm config.ports := by
    have h1 : (config.ports.map scan).map PortResult.port = config.ports := by
      rw [List.map_map]
      have h2 : (PortResult.port ∘ scan) = fun p => p := funext fun p => hp p
      rw [h2]
      exact List.map_id' config.ports
    have h3 := hperm.map PortResult.port
    rw [h1] at h3
    exact h3
  have hcolnd : (collected.map PortResult.port).Nodup := hmap.symm.nodup hnd
  have hlen : collected.length = config.ports.length := by
    have := hperm.length_eq
    simpa using this
  have hres : (run_scan config collected duration).results =
      run_scan_filter_sort collected config.show_closed := rfl
  rw [hres]
  cases hsc : config.show_closed with
  | true =>
      have hF : run_scan_filter_sort collected true = sort_by_port collected := rfl
      rw [hF]
      have hlt := sort_by_port_pairwise_lt collected hcolnd
      refine ⟨hlt, List.pairwise_map.mpr (hlt.imp fun h => ne_of_lt h), ?_, ?_⟩
      · intro _
        rw [(sort_by_port_perm collected).length_eq, hlen]
      · rw [(sort_by_port_perm collected).length_eq, hlen]
  | false =>
      have hF : run_scan_filter_sort collected false =
          sort_by_port (collected.filter fun r => decide (r.status ≠ PortStatus.Closed)) := rfl
      rw [hF]
      have hsubnd : ((collected.filter fun r =>
          decide (r.status ≠ PortStatus.Closed)).map PortResult.port).Nodup :=
        ((List.filter_sublist collected).map PortResult.port).nodup hcolnd
      have hlt := sort_by_port_pairwise_lt _ hsubnd
      refine ⟨hlt, List.pairwise_map.mpr (hlt.imp fun h => ne_of_lt h), ?_, ?_⟩
      · intro h
        exact absurd h (by simp)
      · rw [(sort_by_port_perm _).length_eq]
        calc (collected.filter fun r => decide (r.status ≠ PortStatus.Closed)).length
            ≤ collected.length := List.length_filter_le _ _
          _ = config.ports.length := hlen

/-- Witness for C2: ports [443, 22, 80] whose probe results arrive in
reversed completion order still give a sorted, duplicate-free,
full-length report when closed ports are retained. -/
theorem run_scan_report_sorted_unique_length_witness :
    List.Pairwise (fun a b : PortResult => a.port < b.port)
      (run_scan
        ⟨IpAddr.v4 2130706433, str ("localhost"), [443, 22, 80], ScanType.Connect,
          500, 3000, false, true, false, none⟩
        (([443, 22, 80].map fun p => PortResult.new p PortStatus.Open []).reverse)
        7).results
    ∧ ((run_scan
        ⟨IpAddr.v4 2130706433, str ("localhost"), [443, 22, 80], ScanType.Connect,
          500, 3000, false, true, false, none⟩
        (([443, 22, 80].map fun p => PortResult.new p PortStatus.Open []).reverse)
        7).results.map PortResult.port).Nodup
    ∧ ((⟨IpAddr.v4 2130706433, str ("localhost"), [443, 22, 80], ScanType.Connect,
          500, 3000, false, true, false, none⟩ : ScanConfig).show_closed = true →
        (run_scan
          ⟨IpAddr.v4 2130706433, str ("localhost"), [443, 22, 80], ScanType.Connect,
            500, 3000, false, true, false, none⟩
          (([443, 22, 80].map fun p => PortResult.new p PortStatus.Open []).reverse)
          7).results.length =
          (⟨IpAddr.v4 2130706433, str ("localhost"), [443, 22, 80], ScanType.Connect,
            500, 3000, false, true, false, none⟩ : ScanConfig).ports.length)
    ∧ (run_scan
        ⟨IpAddr.v4 2130706433, str ("localhost"), [443, 22, 80], ScanType.Connect,
          500, 3000, false, true, false, none⟩
        (([443, 22, 80].map fun p => PortResult.new p PortStatus.Open []).reverse)
        7).results.length ≤
        (⟨IpAddr.v4 2130706433, str ("localhost"), [443, 22, 80], ScanType.Connect,
          500, 3000, false, true, false, none⟩ : ScanConfig).ports.length :=
  run_scan_report_sorted_unique_length
    ⟨IpAddr.v4 2130706433, str ("localhost"), [443, 22, 80], ScanType.Connect,
      500, 3000, false, true, false, none⟩
    (fun p => PortResult.new p PortStatus.Open [])
    (([443, 22, 80].map fun p => PortResult.new p PortStatus.Open []).reverse)
    7 (by decide) (fun p => rfl) (List.reverse_perm _)

/-- A TCP Connect `scan_port` result never has the ambiguous status. -/
theorem tcp_scan_port_status_ne_open_filtered (tcp : TcpConnectScanner)
    (svc : List Nat) (bannerRead : Option (List Nat)) (elapsed : Nat)
    (port : Nat) (io : ConnectAttempt) :
    (tcp.scan_port svc bannerRead elapsed port io).status ≠ PortStatus.OpenFiltered := by
  cases io <;>
    simp [TcpConnectScanner.scan_port, TcpConnectScanner.attempt_connect,
      PortResult.new, PortResult.with_banner, PortResult.with_response_time] <;>
    split_ifs <;> simp

/-- C8: no result in a TCP Connect report has status OpenFiltered:
`TcpConnectScanner::scan_port` only produces Open, Closed or Filtered,
and `run_scan` only filters and sorts those results. -/
theorem tcp_connect_report_no_open_filtered
    (config : ScanConfig) (collected : List PortResult) (duration : Nat)
    (tcp : TcpConnectScanner) (svc : Nat → List Nat)
    (bannerRead : Nat → Option (List Nat)) (elapsed : Nat → Nat)
    (io : Nat → ConnectAttempt)
    (hcol : collected.Perm (config.ports.map fun p =>
        tcp.scan_port (svc p) (bannerRead p) (elapsed p) p (io p))) :
    ∀ r ∈ (run_scan config collected duration).results,
      r.status ≠ PortStatus.OpenFiltered := by
  intro r hr
  have h1 : r ∈ run_scan_filter_sort collected config.show_closed := hr
  have h2 : r ∈ collected := by
    cases hsc : config.show_closed with
    | true =>
        rw [hsc] at h1
        exact ((sort_by_port_perm collected).mem_iff).mp h1
    | false =>
        rw [hsc] at h1
        have h3 := ((sort_by_port_perm _).mem_iff).mp h1
        exact (List.filter_sublist collected).subset h3
  have h4 := hcol.subset h2
  obtain ⟨p, hpmem, hpe⟩ := List.mem_map.mp h4
  rw [← hpe]
  exact tcp_scan_port_status_ne_open_filtered tcp (svc p) (bannerRead p) (elapsed p) p (io p)

/-- Witness for C8: the result of a successful concrete TCP Connect
probe, member of its own one-port report, is not OpenFiltered. -/
theorem tcp_connect_report_no_open_filtered_witness :
    ((TcpConnectScanner.new (IpAddr.v4 2130706433) 3000 false).scan_port
      (str ("http")) none 12 80 ConnectAttempt.connected).status ≠
      PortStatus.OpenFiltered :=
  tcp_connect_report_no_open_filtered
    ⟨IpAddr.v4 2130706433, str ("localhost"), [80], ScanType.Connect,
      500, 3000, false, true, false, none⟩
    [(TcpConnectScanner.new (IpAddr.v4 2130706433) 3000 false).scan_port
      (str ("http")) none 12 80 ConnectAttempt.connected]
    0 (TcpConnectScanner.new (IpAddr.v4 2130706433) 3000 false)
    (fun _ => str ("http")) (fun _ => none) (fun _ => 12)
    (fun _ => ConnectAttempt.connected) (List.Perm.refl _)
    ((TcpConnectScanner.new (IpAddr.v4 2130706433) 3000 false).scan_port
      (str ("http")) none 12 80 ConnectAttempt.connected)
    (by simp [run_scan, run_scan_filter_sort, sort_by_port])

/-- C10: the report's aggregate counts are computed over the
already-filtered result list: with `show_closed` false the
`closed_ports` total is 0 no matter how many probes returned Closed, and
`open_ports` counts exactly the retained results with status Open or
OpenFiltered. -/
theorem report_counts_over_filtered_results
    (config : ScanConfig) (collected : List PortResult) (duration : Nat)
    (h : config.show_closed = false) :
    (run_scan config collected duration).closed_ports = 0
    ∧ (run_scan config collected duration).open_ports =
        ((run_scan config collected duration).results.filter fun r =>
          decide (r.status = PortStatus.Open) ||
            decide (r.status = PortStatus.OpenFiltered)).length := by
  refine ⟨?_, rfl⟩
  have hcp : (run_scan config collected duration).closed_ports =
      ((run_scan_filter_sort collected config.show_closed).filter fun r =>
        decide (r.status = PortStatus.Closed)).length := rfl
  rw [hcp, h]
  rw [List.length_eq_zero, List.filter_eq_nil_iff]
  intro r hr
  have h2 : r ∈ collected.filter fun x => decide (x.status ≠ PortStatus.Closed) :=
    ((sort_by_port_perm _).mem_iff).mp hr
  have h3 := List.of_mem_filter h2
  simpa using h3

/-- Witness for C10: a job that saw one Closed and one Open probe with
`show_closed` off reports zero closed ports. -/
theorem report_counts_over_filtered_results_witness :
    (run_scan
      ⟨IpAddr.v4 2130706433, str ("localhost"), [22, 9999], ScanType.Connect,
        500, 3000, false, false, false, none⟩
      [PortResult.new 9999 PortStatus.Closed [], PortResult.new 22 PortStatus.Open []]
      3).closed_ports = 0
    ∧ (run_scan
      ⟨IpAddr.v4 2130706433, str ("localhost"), [22, 9999], ScanType.Connect,
        500, 3000, false, false, false, none⟩
      [PortResult.new 9999 PortStatus.Closed [], PortResult.new 22 PortStatus.Open []]
      3).open_ports =
      ((run_scan
        ⟨IpAddr.v4 2130706433, str ("localhost"), [22, 9999], ScanType.Connect,
          500, 3000, false, false, false, none⟩
        [PortResult.new 9999 PortStatus.Closed [], PortResult.new 22 PortStatus.Open []]
        3).results.filter fun r =>
          decide (r.status = PortStatus.Open) ||
            decide (r.status = PortStatus.OpenFiltered)).length :=
  report_counts_over_filtered_results
    ⟨IpAddr.v4 2130706433, str ("localhost"), [22, 9999], ScanType.Connect,
      500, 3000, false, false, false, none⟩
    [PortResult.new 9999 PortStatus.Closed [], PortResult.new 22 PortStatus.Open []]
    3 rfl

/-- C6 (code defect): the orchestrator's per-probe task awaits only the
concurrency semaphore before invoking the strategy — for this concrete
three-port job, every spawned probe trace is semaphore-acquire, strategy
invocation, progress update, release, and no trace contains a
`RateLimiter::wait` suspension: `scan_with_scanner` / `run_scan` never
consult the rate limiter (whose `wait` is what the spec says every probe
awaits when a rate limit is configured), and `ScanConfig` cannot even
carry a rate limit. -/
theorem orchestrator_probe_never_awaits_rate_limiter :
    scan_with_scanner_effects true [22, 80, 443] =
      [[ProbeEffect.semAcquire, ProbeEffect.invokeScan 22,
        ProbeEffect.progressInc, ProbeEffect.semRelease],
       [ProbeEffect.semAcquire, ProbeEffect.invokeScan 80,
        ProbeEffect.progressInc, ProbeEffect.semRelease],
       [ProbeEffect.semAcquire, ProbeEffect.invokeScan 443,
        ProbeEffect.progressInc, ProbeEffect.semRelease]]
    ∧ ((scan_with_scanner_effects true [22, 80, 443]).all
        fun trace => decide (ProbeEffect.rateWait ∉ trace)) = true := by
  exact ⟨rfl, by decide⟩
